import Mathlib

set_option maxRecDepth 40000

/-!
Verification model of the YouTube→Threads cross-posting bot.

Texts are modelled as `List Char`. Python string primitives (`str.split`,
`str.lower`, `str.strip`, `c.isalpha`) and the concrete regular expressions
used by the moderator (`#\w+`, the emoji code-point class, and the three
default spam patterns) are embedded as executable Lean functions below.
Unicode character classes are approximated by the ASCII and Cyrillic ranges
the repository actually handles; ratios computed with Python floats are
embedded as exact rationals (all thresholds compared against are dyadic and
the operand magnitudes are far below any double rounding boundary).
-/

/-- Dropping a matched run never lengthens a list (termination helper). -/
theorem dropWhileLenLe {α : Type} (p : α → Bool) :
    (l : List α) → (l.dropWhile p).length ≤ l.length
  | [] => Nat.le_refl 0
  | c :: rest => by
    rw [List.dropWhile_cons]
    split
    · exact Nat.le_succ_of_le (dropWhileLenLe p rest)
    · exact Nat.le_refl _

/-- Whitespace set recognised by Python's `str.split()` / `str.strip()`
(ASCII portion). -/
def pyIsSpace (c : Char) : Bool :=
  c = ' ' || c = '\t' || c = '\n' || c = '\r' ||
    c = Char.ofNat 11 || c = Char.ofNat 12

/-- Python `str.lower` restricted to the ASCII and Cyrillic letters the bot
processes: `А`–`Я` and `Ё` map to their lowercase forms, ASCII via
`Char.toLower`. -/
def pyToLower (c : Char) : Char :=
  if 0x410 ≤ c.toNat ∧ c.toNat ≤ 0x42F then Char.ofNat (c.toNat + 0x20)
  else if c.toNat = 0x401 then Char.ofNat 0x451
  else c.toLower

/-- Python `c.isalpha()` approximated by ASCII letters plus the Cyrillic
block U+0400–U+04FF. -/
def pyIsAlpha (c : Char) : Bool :=
  c.isAlpha || decide (0x400 ≤ c.toNat ∧ c.toNat ≤ 0x4FF)

/-- Word character for the regex `\w`: alphanumerics, underscore, and the
Cyrillic block. -/
def isWordChar (c : Char) : Bool :=
  c.isAlphanum || c = '_' || decide (0x400 ≤ c.toNat ∧ c.toNat ≤ 0x4FF)

/-- Accumulator pass for `str.split()`: `acc` holds the reversed current
fragment; a whitespace character closes a non-empty fragment. -/
def pySplitAux : List Char → List Char → List (List Char)
  | [], [] => []
  | [], acc => [acc.reverse]
  | c :: rest, acc =>
    if pyIsSpace c then
      match acc with
      | [] => pySplitAux rest []
      | _ :: _ => acc.reverse :: pySplitAux rest []
    else pySplitAux rest (c :: acc)

/-- Python `str.split()` with no separator: split on whitespace runs,
dropping empty fragments. -/
def pySplit (l : List Char) : List (List Char) :=
  pySplitAux l []

/-- Python `str.strip()`: drop whitespace from both ends. -/
def pyStrip (l : List Char) : List Char :=
  ((l.dropWhile pyIsSpace).reverse.dropWhile pyIsSpace).reverse

/-- State pass of `re.sub(r' +', ' ', text)`: `inRun` records whether the
previous character was a space, so each maximal run of spaces emits exactly
one space. -/
def collapseSpacesAux : Bool → List Char → List Char
  | _, [] => []
  | inRun, c :: rest =>
    if c = ' ' then
      if inRun then collapseSpacesAux true rest
      else ' ' :: collapseSpacesAux true rest
    else c :: collapseSpacesAux false rest

/-- `re.sub(r' +', ' ', text)`: every maximal run of spaces is replaced by
a single space. -/
def collapseSpaces (l : List Char) : List Char :=
  collapseSpacesAux false l

/-- State pass counting maximal runs of characters satisfying `p`: `inRun`
records whether the previous character matched. -/
def countRunsAux (p : Char → Bool) : Bool → List Char → Nat
  | _, [] => 0
  | inRun, c :: rest =>
    if p c then
      if inRun then countRunsAux p true rest
      else 1 + countRunsAux p true rest
    else countRunsAux p false rest

/-- Number of non-overlapping matches of a character-class regex `[…]+`
(as `re.findall` counts them): the number of maximal runs of characters
satisfying `p`. -/
def countRuns (p : Char → Bool) (l : List Char) : Nat :=
  countRunsAux p false l

/-- Number of non-overlapping matches of `#\w+` as counted by
`re.findall(r'#\w+', text)`: since `#` is not a word character, each match
starts at a `#` that is immediately followed by a word character, and no
such `#` can sit inside an earlier match, so the matches are exactly those
positions. -/
def countHashtagMatches : List Char → Nat
  | [] => 0
  | [_] => 0
  | c :: c2 :: rest2 =>
    (if c = '#' && isWordChar c2 then 1 else 0) + countHashtagMatches (c2 :: rest2)

/-- Whether `needle` occurs at the head of `hay` (regex anchor helper). -/
def leadsWith : List Char → List Char → Bool
  | [], _ => true
  | _ :: _, [] => false
  | a :: as, b :: bs => a = b && leadsWith as bs

/-- Whether `needle` occurs anywhere inside `hay`; models Python's
`needle in hay` substring test. -/
def containsSeq (needle : List Char) : List Char → Bool
  | [] => needle.isEmpty
  | c :: rest => leadsWith needle (c :: rest) || containsSeq needle rest

/-- Substring test on `String`s, via their character lists. -/
def containsStr (needle hay : String) : Bool :=
  containsSeq needle.data hay.data

/-! Guardrail / moderation engine (`src/ai/moderator.py`), with the default
configuration from `Moderator._get_default_config` in production mode. -/

/-- Safety level for content (`SafetyLevel` enum). -/
inductive SafetyLevel where
  | SAFE
  | WARNING
  | UNSAFE
deriving DecidableEq, Repr

/-- Violation record; the human-readable `message` text is presentation-only
and not modelled, `type` and the constant default `severity` (5 at every
construction site) are kept. -/
structure Violation where
  type : String
  severity : Nat
deriving DecidableEq, Repr

/-- Result of content moderation (`ModerationResult` dataclass); the joined
`reason` string is presentation-only and not modelled. -/
structure ModerationResult where
  is_safe : Bool
  safety_level : SafetyLevel
  violations : List Violation
  length_valid : Bool
  word_count : Nat
deriving DecidableEq, Repr

/-- Transcript-validation thresholds held on the `Moderator` instance. -/
structure ModeratorConfig where
  min_length : Nat
  max_length : Nat
  min_word_count : Nat
  max_word_count : Nat
  max_repetition_ratio : ℚ
  min_alpha_ratio : ℚ
deriving DecidableEq, Repr

/-- Production defaults from `_get_default_config`; the two 0.5 thresholds
are written `mkRat 1 2` (definitionally a normalised rational, equal to
`1/2`, see `defaultMaxRepetitionRatioEq`). -/
def defaultModeratorConfig : ModeratorConfig :=
  ⟨100, 50000, 20, 10000, mkRat 1 2, mkRat 1 2⟩

/-- The default repetition threshold is one half. -/
theorem defaultMaxRepetitionRatioEq :
    defaultModeratorConfig.max_repetition_ratio = 1 / 2 := by
  show mkRat 1 2 = 1 / 2
  rw [Rat.mkRat_eq_div]
  norm_num

/-- The default alphabetic-density floor is one half. -/
theorem defaultMinAlphaRatioEq :
    defaultModeratorConfig.min_alpha_ratio = 1 / 2 := by
  show mkRat 1 2 = 1 / 2
  rw [Rat.mkRat_eq_div]
  norm_num

/-- Per-platform post limits. -/
structure PlatformLimits where
  max_length : Nat
  min_length : Nat
  max_hashtags : Nat
  max_emojis : Nat
deriving DecidableEq, Repr

/-- Default limits for the `threads` platform. -/
def threadsLimits : PlatformLimits := ⟨500, 20, 5, 10⟩

/-- Word count: `len(text.split())` (empty text gives 0 since `split`
returns no fragments). -/
def calculate_word_count (text : List Char) : Nat :=
  (pySplit text).length

/-- Repetition check: texts shorter than 50 characters (including the empty
text, covered by `len < 50`) or with fewer than 10 lowercased words are
non-repetitive by definition; otherwise flag when
`1 - uniqueWords/totalWords > max_repetition_ratio`. -/
def check_repetition (cfg : ModeratorConfig) (text : List Char) : Bool :=
  if text.length < 50 then false
  else
    let words := pySplit (text.map pyToLower)
    if words.length < 10 then false
    else
      decide ((1 : ℚ) - (words.dedup.length : ℚ) / (words.length : ℚ) >
        cfg.max_repetition_ratio)

/-- Ratio of alphabetic characters; 0.0 for the empty text, otherwise
`alpha_count / len(text)`. -/
def calculate_alpha_ratio (text : List Char) : ℚ :=
  if text = [] then 0
  else (text.countP pyIsAlpha : ℚ) / (text.length : ℚ)

/-- Character class of the emoji regex in `Moderator.count_emojis`. -/
def isEmojiChar (c : Char) : Bool :=
  decide ((0x1F600 ≤ c.toNat ∧ c.toNat ≤ 0x1F64F) ∨
    (0x1F300 ≤ c.toNat ∧ c.toNat ≤ 0x1F5FF) ∨
    (0x1F680 ≤ c.toNat ∧ c.toNat ≤ 0x1F6FF) ∨
    (0x1F1E0 ≤ c.toNat ∧ c.toNat ≤ 0x1F1FF) ∨
    (0x2702 ≤ c.toNat ∧ c.toNat ≤ 0x27B0) ∨
    (0x24C2 ≤ c.toNat ∧ c.toNat ≤ 0x1F251))

/-- Emoji count: `re.findall` of `[ranges]+` counts maximal emoji runs. -/
def count_emojis (text : List Char) : Nat :=
  countRuns isEmojiChar text

/-- Hashtag count: `len(re.findall(r'#\w+', text))`. -/
def count_hashtags (text : List Char) : Nat :=
  countHashtagMatches text

/-- Character class of the spam pattern `[А-ЯA-Z]{20,}`. -/
def isUpperSpamChar (c : Char) : Bool :=
  decide (('A' ≤ c ∧ c ≤ 'Z') ∨ (0x410 ≤ c.toNat ∧ c.toNat ≤ 0x42F))

/-- `re.search(r'!{3,}', text)`: some position starts a run of ≥ 3 bangs. -/
def hasBangRun : List Char → Bool
  | [] => false
  | c :: rest =>
    (c = '!' && decide (2 ≤ (rest.takeWhile (fun d => d = '!')).length)) ||
      hasBangRun rest

/-- `re.search(r'[А-ЯA-Z]{20,}', text)`: a run of ≥ 20 uppercase letters. -/
def hasUpperRun : List Char → Bool
  | [] => false
  | c :: rest =>
    (isUpperSpamChar c && decide (19 ≤ (rest.takeWhile isUpperSpamChar).length)) ||
      hasUpperRun rest

/-- `re.search(r'(.)\1{10,}', text)`: some non-newline character repeated
at least 11 times in a row (`.` does not match a newline). -/
def hasRepeatedCharRun : List Char → Bool
  | [] => false
  | c :: rest =>
    (decide (c ≠ '\n') && decide (10 ≤ (rest.takeWhile (fun d => d = c)).length)) ||
      hasRepeatedCharRun rest

/-- Spam detection over the three default `spam_patterns` regexes. -/
def check_spam_patterns (text : List Char) : Bool :=
  hasBangRun text || hasUpperRun text || hasRepeatedCharRun text

/-- `Moderator.check_transcript`: length bounds, minimum word count,
repetition and alphabetic-density checks, then safety classification. -/
def check_transcript (cfg : ModeratorConfig) (transcript : List Char) :
    ModerationResult :=
  let word_count := calculate_word_count transcript
  let violations :=
    (if transcript.length < cfg.min_length then [Violation.mk "too_short" 5] else []) ++
    (if transcript.length > cfg.max_length then [Violation.mk "too_long" 5] else []) ++
    (if word_count < cfg.min_word_count then [Violation.mk "too_short" 5] else []) ++
    (if check_repetition cfg transcript then [Violation.mk "repetitive_content" 5] else []) ++
    (if calculate_alpha_ratio transcript < cfg.min_alpha_ratio then
      [Violation.mk "insufficient_alpha" 5] else [])
  let is_safe : Bool := violations.length = 0
  let safety_level :=
    if is_safe then SafetyLevel.SAFE
    else if violations.length ≤ 2 then SafetyLevel.WARNING
    else SafetyLevel.UNSAFE
  { is_safe := is_safe
    safety_level := safety_level
    violations := violations
    length_valid := decide (cfg.min_length ≤ transcript.length ∧
      transcript.length ≤ cfg.max_length)
    word_count := word_count }

/-- `Moderator.check_post`: platform length bounds, spam patterns, hashtag
count (strict `>` bound) and emoji count (`>=` bound), then safety
classification. -/
def check_post (limits : PlatformLimits) (post : List Char) : ModerationResult :=
  let violations :=
    (if post.length < limits.min_length then [Violation.mk "too_short" 5] else []) ++
    (if post.length > limits.max_length then [Violation.mk "length_exceeded" 5] else []) ++
    (if check_spam_patterns post then [Violation.mk "spam_detected" 5] else []) ++
    (if count_hashtags post > limits.max_hashtags then
      [Violation.mk "excessive_hashtags" 5] else []) ++
    (if count_emojis post ≥ limits.max_emojis then
      [Violation.mk "excessive_emojis" 5] else [])
  let is_safe : Bool := violations.length = 0
  let safety_level :=
    if is_safe then SafetyLevel.SAFE
    else if violations.length ≤ 2 then SafetyLevel.WARNING
    else SafetyLevel.UNSAFE
  { is_safe := is_safe
    safety_level := safety_level
    violations := violations
    length_valid := decide (limits.min_length ≤ post.length ∧
      post.length ≤ limits.max_length)
    word_count := calculate_word_count post }

/-- `Moderator.auto_fix_whitespace`: collapse space runs, then strip. -/
def auto_fix_whitespace (text : List Char) : List Char :=
  pyStrip (collapseSpaces text)

/-- `Moderator.auto_fix`: truncate an over-length post to `max_length - 3`
characters plus a literal `"..."`, then fix whitespace. -/
def auto_fix (limits : PlatformLimits) (post : List Char) : List Char :=
  auto_fix_whitespace
    (if post.length > limits.max_length then
      post.take (limits.max_length - 3) ++ ['.', '.', '.']
    else post)

/-! Threads publishing client (`src/social/threads_client.py`). The HTTP
layer is abstracted as an `HttpOutcome` per attempt: everything
`publish_post` inspects about a `requests.post` call. -/

/-- Result of publishing a post (`PublishResult` dataclass). -/
structure PublishResult where
  success : Bool
  post_id : Option String
  post_url : Option String
  error_message : Option String
  platform : String
deriving DecidableEq, Repr

/-- Exceptions `publish_post` can raise: `ValueError` for invalid content,
`ThreadsAPIError` for API/transport failures. -/
inductive PubError where
  | valueError (msg : String)
  | threadsAPIError (msg : String)
deriving DecidableEq, Repr

/-- Observable outcome of one `requests.post` call: an HTTP response with
status code, extractable post id / permalink and parsed error message, or a
timeout, or another transport failure. -/
inductive HttpOutcome where
  | response (status : Nat) (post_id post_url : Option String) (error_msg : String)
  | timeout
  | networkError (msg : String)
deriving DecidableEq, Repr

/-- `ThreadsClient.MAX_POST_LENGTH`. -/
def MAX_POST_LENGTH : Nat := 500

/-- `ThreadsClient.validate_post_content`: returns `(is_valid, errors)`. -/
def validate_post_content (content : List Char) : Bool × List String :=
  let errors :=
    (if content = [] ∨ pyStrip content = [] then ["Content cannot be empty"] else []) ++
    (if content.length > MAX_POST_LENGTH then
      ["Content exceeds maximum length of 500 characters"] else [])
  (errors.length = 0, errors)

/-- Python `"; ".join`. -/
def joinSemicolon : List String → String
  | [] => ""
  | [s] => s
  | s :: rest => s ++ "; " ++ joinSemicolon rest

/-- `ThreadsClient.publish_post` on a given attempt outcome: invalid content
raises `ValueError`; 200 returns a success result with id and permalink;
401 and 429 raise `ThreadsAPIError`; any other status returns a
non-throwing failure result; transport failures raise `ThreadsAPIError`. -/
def publish_post (content : List Char) (outcome : HttpOutcome) :
    Except PubError PublishResult :=
  if (validate_post_content content).1 = false then
    .error (.valueError (joinSemicolon (validate_post_content content).2))
  else
    match outcome with
    | .response status pid purl msg =>
      if status = 200 then .ok ⟨true, pid, purl, none, "threads"⟩
      else if status = 401 then
        .error (.threadsAPIError ("Authentication failed: " ++ msg))
      else if status = 429 then
        .error (.threadsAPIError ("Rate limit exceeded: " ++ msg))
      else .ok ⟨false, none, none, some ("API error: " ++ msg), "threads"⟩
    | .timeout => .error (.threadsAPIError "Request timeout")
    | .networkError msg => .error (.threadsAPIError ("Network error: " ++ msg))

/-- The retry loop's terminal-error test:
`"Authentication" in str(e) or "Rate limit" in str(e)`. -/
def isTerminalMsg (msg : String) : Bool :=
  containsStr "Authentication" msg || containsStr "Rate limit" msg

/-- Trace of one `publish_post_with_retry` run: the surfaced result (or
raised error), how many times `publish_post` was invoked, and the backoff
sleeps performed (in seconds, in order). -/
structure RetryTrace where
  result : Except PubError PublishResult
  calls : Nat
  sleeps : List Nat
deriving Repr

/-- Body of `ThreadsClient.publish_post_with_retry`, structurally recursive
on `fuel = max_retries - attempt` (so `attempt < max_retries` is `fuel ≥ 1`
and the source's `attempt < max_retries - 1` is `fuel ≥ 2`): terminal
errors re-raise immediately; retryable `ThreadsAPIError`s sleep
`2 ^ attempt` and retry while attempts remain, otherwise re-raise;
`ValueError` is not caught and propagates; with no attempts allowed the
loop is skipped and a synthetic failure result is returned. -/
def publishRetryAux (pub : Nat → Except PubError PublishResult)
    (attempt : Nat) : Nat → RetryTrace
  | 0 => ⟨.ok ⟨false, none, none, some "All retries failed", "threads"⟩, 0, []⟩
  | fuel + 1 =>
    match pub attempt with
    | .ok res => ⟨.ok res, 1, []⟩
    | .error (.valueError m) => ⟨.error (.valueError m), 1, []⟩
    | .error (.threadsAPIError m) =>
      if isTerminalMsg m then ⟨.error (.threadsAPIError m), 1, []⟩
      else
        match fuel with
        | 0 => ⟨.error (.threadsAPIError m), 1, []⟩
        | fuel2 + 1 =>
          let t := publishRetryAux pub (attempt + 1) (fuel2 + 1)
          ⟨t.result, t.calls + 1, 2 ^ attempt :: t.sleeps⟩

/-- `ThreadsClient.publish_post_with_retry` with the per-attempt HTTP
outcomes supplied as a function of the attempt index. -/
def publish_post_with_retry (content : List Char)
    (outcomes : Nat → HttpOutcome) (max_retries : Nat) : RetryTrace :=
  publishRetryAux (fun k => publish_post content (outcomes k)) 0 max_retries

/-- An attempt result the retry loop treats as retryable: a raised
`ThreadsAPIError` whose message is not terminal. -/
def isRetryableFailure : Except PubError PublishResult → Bool
  | .error (.threadsAPIError m) => !isTerminalMsg m
  | _ => false

/-! Post generator retry wrapper
(`PostGenerator.generate_post_with_retry`, `src/ai/post_generator.py`).
The Claude API call inside `generate_post` is abstracted as a per-attempt
`GenOutcome`. -/

/-- Dataclass for a generated post (`GeneratedPost`). -/
structure GeneratedPost where
  platform : String
  content : String
  hashtags : List String
  emoji_count : Nat
  char_count : Nat
deriving DecidableEq, Repr

/-- Outcome of one `generate_post` attempt: success, or one of the
exception kinds the wrapper can observe (`anthropic.RateLimitError`,
`anthropic.AuthenticationError`, or any other `Exception`). -/
inductive GenOutcome where
  | ok (post : GeneratedPost)
  | rateLimitError (msg : String)
  | authenticationError (msg : String)
  | otherError (msg : String)
deriving DecidableEq, Repr

/-- Error surfaced by the generator retry wrapper. -/
inductive GenError where
  | rateLimitError (msg : String)
  | authenticationError (msg : String)
  | otherError (msg : String)
deriving DecidableEq, Repr

/-- Error carried by a failing outcome (dummy for `ok`, which never
reaches the error paths). -/
def genOutcomeErr : GenOutcome → GenError
  | .ok _ => .otherError ""
  | .rateLimitError m => .rateLimitError m
  | .authenticationError m => .authenticationError m
  | .otherError m => .otherError m

/-- Trace of one `generate_post_with_retry` run; `result = .ok none` is the
implicit `return None` when `max_retries = 0` skips the loop entirely. -/
structure GenRetryTrace where
  result : Except GenError (Option GeneratedPost)
  calls : Nat
  sleeps : List Nat
deriving Repr

/-- Body of `generate_post_with_retry`, structurally recursive on
`fuel = max_retries - attempt`: `except anthropic.RateLimitError: raise`
re-raises immediately; every other exception (including authentication
failures) falls into `except Exception` and is retried with a
`2 ^ attempt` sleep while attempts remain. -/
def genRetryAux (op : Nat → GenOutcome) (attempt : Nat) : Nat → GenRetryTrace
  | 0 => ⟨.ok none, 0, []⟩
  | fuel + 1 =>
    match op attempt with
    | .ok g => ⟨.ok (some g), 1, []⟩
    | .rateLimitError m => ⟨.error (.rateLimitError m), 1, []⟩
    | .authenticationError m =>
      match fuel with
      | 0 => ⟨.error (.authenticationError m), 1, []⟩
      | fuel2 + 1 =>
        let t := genRetryAux op (attempt + 1) (fuel2 + 1)
        ⟨t.result, t.calls + 1, 2 ^ attempt :: t.sleeps⟩
    | .otherError m =>
      match fuel with
      | 0 => ⟨.error (.otherError m), 1, []⟩
      | fuel2 + 1 =>
        let t := genRetryAux op (attempt + 1) (fuel2 + 1)
        ⟨t.result, t.calls + 1, 2 ^ attempt :: t.sleeps⟩

/-- `PostGenerator.generate_post_with_retry` over abstract attempt
outcomes. -/
def generate_post_with_retry (op : Nat → GenOutcome) (max_retries : Nat) :
    GenRetryTrace :=
  genRetryAux op 0 max_retries

/-- Outcomes the generator wrapper retries: everything caught by its
generic `except Exception` handler. -/
def isGenRetryable : GenOutcome → Bool
  | .authenticationError _ => true
  | .otherError _ => true
  | _ => false

/-! Persistence layer (`src/database/models.py`, `src/database/db.py`) and
the ingestion loop `YouTubeThreadsBot.check_new_videos` (`main.py`).
Tables are modelled as in-order lists of rows; SQL autoincrement ids are
`length + 1`; timestamp columns are not modelled. -/

/-- Video processing status enum. -/
inductive ProcessingStatus where
  | NEW
  | TRANSCRIBED
  | POSTS_GENERATED
  | APPROVED
  | PUBLISHED
  | REJECTED
  | FAILED
deriving DecidableEq, Repr

/-- Post publishing status enum. -/
inductive PostStatus where
  | DRAFT
  | APPROVED
  | PUBLISHED
  | FAILED
  | REJECTED
deriving DecidableEq, Repr

/-- Row of the `videos` table. -/
structure Video where
  id : Nat
  video_id : String
  title : String
  url : String
  description : Option String
  published_date : Nat
  thumbnail_url : Option String
  duration : Option Nat
  transcript : Option String
  processing_status : ProcessingStatus
deriving DecidableEq, Repr

/-- Row of the `posts` table. -/
structure Post where
  id : Nat
  video_id : Nat
  platform : String
  content : String
  status : PostStatus
  published_url : Option String
deriving DecidableEq, Repr

/-- Feed candidate as returned by the YouTube detector. -/
structure FeedVideo where
  video_id : String
  title : String
  url : String
  published_date : Nat
  description : Option String
  thumbnail_url : Option String
deriving DecidableEq, Repr

/-- `Database.get_video_by_video_id`: first row matching the YouTube id. -/
def get_video_by_video_id (db : List Video) (video_id : String) : Option Video :=
  db.find? (fun v => v.video_id = video_id)

/-- `Database.add_video`: insert a new row with status `NEW` (duration is
not supplied by the ingestion path). -/
def add_video (db : List Video) (video_id title url : String)
    (published_date : Nat) (description thumbnail_url : Option String) :
    List Video :=
  db ++ [⟨db.length + 1, video_id, title, url, description, published_date,
    thumbnail_url, none, none, ProcessingStatus.NEW⟩]

/-- Per-candidate body of `YouTubeThreadsBot.check_new_videos`: skip the
candidate if its `video_id` is already stored, otherwise add it. -/
def ingest_video (db : List Video) (v : FeedVideo) : List Video :=
  if (get_video_by_video_id db v.video_id).isSome then db
  else add_video db v.video_id v.title v.url v.published_date
    v.description v.thumbnail_url

/-- `YouTubeThreadsBot.check_new_videos` over a fetched feed: ingest each
candidate in order. -/
def check_new_videos (db : List Video) (feed : List FeedVideo) : List Video :=
  feed.foldl ingest_video db

/-- `Database.add_post`: insert a new row with no published URL. The Python
signature defaults `status` to `PostStatus.DRAFT`; the status argument is
explicit here. -/
def add_post (db : List Post) (video_id : Nat) (platform content : String)
    (status : PostStatus) : List Post :=
  db ++ [⟨db.length + 1, video_id, platform, content, status, none⟩]

/-- `Database.mark_post_as_published`: update the first row with the given
id, setting status to `PUBLISHED` and the published URL together. -/
def mark_post_as_published : List Post → Nat → String → List Post
  | [], _, _ => []
  | p :: rest, post_id, url =>
    if p.id = post_id then
      { p with status := PostStatus.PUBLISHED, published_url := some url } :: rest
    else p :: mark_post_as_published rest post_id url

/-- The Post publishing invariant: a stored URL exactly characterises the
`PUBLISHED` status. -/
def postUrlInvariant (db : List Post) : Prop :=
  ∀ p ∈ db, (p.published_url ≠ none ↔ p.status = PostStatus.PUBLISHED)

instance (db : List Post) : Decidable (postUrlInvariant db) := by
  unfold postUrlInvariant
  infer_instance

/-! Helper lemmas about the safety classification shared by both
moderation entry points. -/

/-- `len(violations) == 0` agrees with emptiness. -/
theorem lenZeroIsEmpty {α : Type} (v : List α) :
    decide (v.length = 0) = v.isEmpty := by
  cases v <;> simp

/-- The `if is_safe / elif len <= 2 / else` ladder expressed through the
violation count alone. -/
theorem levelOfCount (v : List Violation) :
    (if decide (v.length = 0) = true then SafetyLevel.SAFE
     else if v.length ≤ 2 then SafetyLevel.WARNING
     else SafetyLevel.UNSAFE) =
    (if v.length = 0 then SafetyLevel.SAFE
     else if v.length ≤ 2 then SafetyLevel.WARNING
     else SafetyLevel.UNSAFE) := by
  by_cases h : v.length = 0 <;> simp [h]

/-- C1. For every configuration and every text, the `ModerationResult`
returned by `check_transcript` and by `check_post` satisfies: `is_safe` is
true iff the violations list is empty, and `safety_level` is `SAFE` with no
violations, `WARNING` with 1–2 violations, and `UNSAFE` with 3 or more. -/
theorem c1_moderation_result_invariant (cfg : ModeratorConfig)
    (limits : PlatformLimits) (t p : List Char) :
    ((check_transcript cfg t).is_safe =
      (check_transcript cfg t).violations.isEmpty) ∧
    ((check_transcript cfg t).safety_level =
      (if (check_transcript cfg t).violations.length = 0 then SafetyLevel.SAFE
       else if (check_transcript cfg t).violations.length ≤ 2 then SafetyLevel.WARNING
       else SafetyLevel.UNSAFE)) ∧
    ((check_post limits p).is_safe = (check_post limits p).violations.isEmpty) ∧
    ((check_post limits p).safety_level =
      (if (check_post limits p).violations.length = 0 then SafetyLevel.SAFE
       else if (check_post limits p).violations.length ≤ 2 then SafetyLevel.WARNING
       else SafetyLevel.UNSAFE)) := by
  refine ⟨?_, ?_, ?_, ?_⟩ <;> simp only [check_transcript, check_post]
  · exact lenZeroIsEmpty _
  · exact levelOfCount _
  · exact lenZeroIsEmpty _
  · exact levelOfCount _

/-- Post with exactly 5 hashtags (the `threads` maximum). -/
def hashtagPost5 : List Char := "nice fresh morning #a #b #c #d #e".data

/-- Post with 6 hashtags (one over the maximum). -/
def hashtagPost6 : List Char := "nice fresh morning #a #b #c #d #e #f".data

/-- The emoji U+1F600 used by the boundary posts. -/
def grinEmoji : Char := Char.ofNat 0x1F600

/-- `n` space-separated single emojis (each its own regex match). -/
def emojiRun : Nat → List Char
  | 0 => []
  | n + 1 => grinEmoji :: ' ' :: emojiRun n

/-- Post with 9 counted emojis (one under the `threads` bound). -/
def emojiPost9 : List Char := "good morning friends ".data ++ emojiRun 9

/-- Post with exactly 10 counted emojis (the `threads` bound). -/
def emojiPost10 : List Char := "good morning friends ".data ++ emojiRun 10

/-- C4. Under the default `threads` limits, a post with exactly
`max_hashtags = 5` hashtags is safe and one with 6 gets exactly an
`excessive_hashtags` violation, while a post with `max_emojis - 1 = 9`
counted emojis is safe and one with exactly 10 already gets an
`excessive_emojis` violation (`>` bound for hashtags, `>=` for emojis). -/
theorem c4_hashtag_emoji_boundaries :
    (check_post threadsLimits hashtagPost5).is_safe = true ∧
    (check_post threadsLimits hashtagPost6).violations =
      [Violation.mk "excessive_hashtags" 5] ∧
    (check_post threadsLimits hashtagPost6).is_safe = false ∧
    (check_post threadsLimits emojiPost9).is_safe = true ∧
    (check_post threadsLimits emojiPost10).violations =
      [Violation.mk "excessive_emojis" 5] ∧
    (check_post threadsLimits emojiPost10).is_safe = false := by
  decide

/-- C10. `calculate_alpha_ratio` is total: 0 on the empty text with no
division, `alphaChars / totalChars ∈ [0, 1]` on every non-empty text; and
`check_transcript` on the empty transcript reports three violations and
classifies it `UNSAFE` rather than failing. -/
theorem c10_alpha_ratio_total :
    (calculate_alpha_ratio [] = 0) ∧
    (∀ text : List Char,
      0 ≤ calculate_alpha_ratio text ∧ calculate_alpha_ratio text ≤ 1) ∧
    (∀ text : List Char, text ≠ [] →
      calculate_alpha_ratio text =
        (text.countP pyIsAlpha : ℚ) / (text.length : ℚ)) ∧
    ((check_transcript defaultModeratorConfig []).is_safe = false ∧
     (check_transcript defaultModeratorConfig []).violations.length = 3 ∧
     (check_transcript defaultModeratorConfig []).safety_level =
       SafetyLevel.UNSAFE) := by
  refine ⟨rfl, ?_, ?_, by decide⟩
  · intro text
    by_cases h : text = []
    · subst h
      simp [calculate_alpha_ratio]
    · rw [calculate_alpha_ratio, if_neg h]
      have hlen : 0 < (text.length : ℚ) := by
        have : 0 < text.length := List.length_pos.mpr h
        exact_mod_cast this
      constructor
      · exact div_nonneg (by positivity) (by positivity)
      · rw [div_le_one hlen]
        exact_mod_cast List.countP_le_length pyIsAlpha
  · intro text h
    rw [calculate_alpha_ratio, if_neg h]

/-- Witness for C10 at the non-empty text `['a']`. -/
theorem c10_alpha_ratio_total_witness :
    calculate_alpha_ratio ['a'] =
      ((['a'].countP pyIsAlpha : ℚ) / ((['a'] : List Char).length : ℚ)) :=
  c10_alpha_ratio_total.2.2.1 ['a'] (by decide)

/-- The spec's repetitive transcript: `"repeat " * 100`. -/
def repeatTranscript : List Char := (List.replicate 100 "repeat ".data).flatten

/-- C7. The repetition check flags a transcript iff its character length is
at least 50, its lowercased whitespace-split word count is at least 10, and
`1 - uniqueWords / totalWords` exceeds the default 0.5 threshold; and
`"repeat " * 100` yields exactly one `repetitive_content` violation with
safety level `WARNING`. -/
theorem c7_repetition_check :
    (∀ text : List Char,
      check_repetition defaultModeratorConfig text = true ↔
        (50 ≤ text.length ∧
         10 ≤ (pySplit (text.map pyToLower)).length ∧
         (1 : ℚ) - ((pySplit (text.map pyToLower)).dedup.length : ℚ) /
           ((pySplit (text.map pyToLower)).length : ℚ) > 1 / 2)) ∧
    ((check_transcript defaultModeratorConfig repeatTranscript).violations =
      [Violation.mk "repetitive_content" 5] ∧
     (check_transcript defaultModeratorConfig repeatTranscript).is_safe = false ∧
     (check_transcript defaultModeratorConfig repeatTranscript).safety_level =
       SafetyLevel.WARNING) := by
  have hiff : ∀ text : List Char,
      check_repetition defaultModeratorConfig text = true ↔
        (50 ≤ text.length ∧
         10 ≤ (pySplit (text.map pyToLower)).length ∧
         (1 : ℚ) - ((pySplit (text.map pyToLower)).dedup.length : ℚ) /
           ((pySplit (text.map pyToLower)).length : ℚ) > 1 / 2) := by
    intro text
    unfold check_repetition
    by_cases h1 : text.length < 50
    · simp only [if_pos h1]
      constructor
      · intro hf
        exact absurd hf (by simp)
      · rintro ⟨h50, -, -⟩
        omega
    · by_cases h2 : (pySplit (text.map pyToLower)).length < 10
      · simp only [if_neg h1, if_pos h2]
        constructor
        · intro hf
          exact absurd hf (by simp)
        · rintro ⟨-, h10, -⟩
          omega
      · simp only [if_neg h1, if_neg h2, decide_eq_true_eq,
          defaultMaxRepetitionRatioEq]
        constructor
        · intro h
          exact ⟨by omega, by omega, h⟩
        · rintro ⟨-, -, h⟩
          exact h
  refine ⟨hiff, ?_⟩
  have hlen : repeatTranscript.length = 700 := by decide
  have hwordsLen : (pySplit (repeatTranscript.map pyToLower)).length = 100 := by
    decide
  have hdedup : (pySplit (repeatTranscript.map pyToLower)).dedup.length = 1 := by
    decide
  have hrep : check_repetition defaultModeratorConfig repeatTranscript = true := by
    rw [hiff repeatTranscript, hlen, hwordsLen, hdedup]
    refine ⟨by omega, by omega, ?_⟩
    push_cast
    norm_num
  have hwc : calculate_word_count repeatTranscript = 100 := by decide
  have hcount : repeatTranscript.countP pyIsAlpha = 600 := by decide
  have halpha :
      ¬ (calculate_alpha_ratio repeatTranscript <
          defaultModeratorConfig.min_alpha_ratio) := by
    have hne : repeatTranscript ≠ [] := by decide
    unfold calculate_alpha_ratio
    rw [if_neg hne, hcount, hlen, defaultMinAlphaRatioEq]
    push_cast
    norm_num
  simp only [check_transcript]
  rw [hwc, hlen, hrep, if_neg halpha]
  norm_num [defaultModeratorConfig]

/-! Helper lemmas about `auto_fix`'s whitespace pass around the literal
`"..."` suffix. -/

/-- Collapsing spaces never lengthens the text. -/
theorem collapseAuxLenLe :
    ∀ (l : List Char) (b : Bool), (collapseSpacesAux b l).length ≤ l.length := by
  intro l
  induction l with
  | nil => intro b; simp [collapseSpacesAux]
  | cons c rest ih =>
    intro b
    have h1 := ih true
    have h2 := ih false
    by_cases hc : c = ' ' <;> cases b <;> simp [collapseSpacesAux, hc] <;> omega

/-- Stripping never lengthens the text. -/
theorem pyStripLenLe (l : List Char) : (pyStrip l).length ≤ l.length := by
  unfold pyStrip
  have h1 := dropWhileLenLe pyIsSpace l
  have h2 := dropWhileLenLe pyIsSpace (l.dropWhile pyIsSpace).reverse
  simp only [List.length_reverse] at h2 ⊢
  omega

/-- The space-collapsing pass commutes with a space-free `"..."` suffix. -/
theorem collapseAux_append_dots (a : List Char) :
    ∀ b, collapseSpacesAux b (a ++ ['.', '.', '.']) =
      collapseSpacesAux b a ++ ['.', '.', '.'] := by
  induction a with
  | nil => intro b; cases b <;> rfl
  | cons c a2 ih =>
    intro b
    by_cases hc : c = ' '
    · subst hc
      cases b <;> simp [collapseSpacesAux, ih]
    · simp [collapseSpacesAux, hc, ih]

/-- A dot is not whitespace, so `dropWhile` stops at it. -/
theorem dropWhile_dot_cons (l : List Char) :
    List.dropWhile pyIsSpace ('.' :: l) = '.' :: l := by
  rw [List.dropWhile_cons, if_neg (by decide : ¬ (pyIsSpace '.' = true))]

/-- Stripping keeps a trailing `"..."` (the dots are never whitespace). -/
theorem pyStrip_append_dots (x : List Char) :
    ∃ z, pyStrip (x ++ ['.', '.', '.']) = z ++ ['.', '.', '.'] := by
  unfold pyStrip
  rw [List.dropWhile_append]
  by_cases h : (x.dropWhile pyIsSpace).isEmpty = true
  · rw [if_pos h]
    exact ⟨[], rfl⟩
  · rw [if_neg h]
    refine ⟨x.dropWhile pyIsSpace, ?_⟩
    rw [List.reverse_append, show (['.', '.', '.'] : List Char).reverse =
      ['.', '.', '.'] from rfl]
    simp only [List.cons_append, List.nil_append]
    rw [dropWhile_dot_cons]
    simp

/-- C8 (amended). `auto_fix` truncates a 600-character post to 497
characters plus a literal `"..."` and then collapses space runs and strips,
so the result ends in `"..."` and has length at most 500 (the whitespace
pass may shrink it below 500). -/
theorem c8_auto_fix_overlong (post : List Char) (h : post.length = 600) :
    (auto_fix threadsLimits post).length ≤ 500 ∧
    ∃ z, auto_fix threadsLimits post = z ++ ['.', '.', '.'] := by
  have hgt : post.length > threadsLimits.max_length := by
    rw [h]
    decide
  unfold auto_fix
  rw [if_pos hgt]
  have h497 : threadsLimits.max_length - 3 = 497 := by decide
  rw [h497]
  unfold auto_fix_whitespace collapseSpaces
  constructor
  · have hc := collapseAuxLenLe (post.take 497 ++ ['.', '.', '.']) false
    have hs := pyStripLenLe
      (collapseSpacesAux false (post.take 497 ++ ['.', '.', '.']))
    have hlen : (post.take 497 ++ (['.', '.', '.'] : List Char)).length = 500 := by
      simp only [List.length_append, List.length_take, h, List.length_cons,
        List.length_nil]
      omega
    omega
  · rw [collapseAux_append_dots]
    exact pyStrip_append_dots _

/-- A 600-character post made of spaces. -/
def spacesPost600 : List Char := List.replicate 600 ' '

/-- C8 counterexample: on the 600-space post, `auto_fix` against the
500-character `threads` limit returns the 3-character string `"..."`, not a
500-character string. -/
theorem c8_counterexample_spaces :
    auto_fix threadsLimits spacesPost600 = ['.', '.', '.'] ∧
    (auto_fix threadsLimits spacesPost600).length = 3 := by
  constructor <;> decide

/-- A 600-character post made of letters. -/
def lettersPost600 : List Char := List.replicate 600 'a'

/-- Witness for C8 at the all-letter 600-character post. -/
theorem c8_auto_fix_overlong_witness :
    (auto_fix threadsLimits lettersPost600).length ≤ 500 :=
  (c8_auto_fix_overlong lettersPost600 (by decide)).1

/-! Helper lemmas for the retry wrapper's substring-based error
classification. -/

/-- A sequence is found at the head of itself plus anything. -/
theorem leadsWith_append_self (needle : List Char) :
    ∀ rest : List Char, leadsWith needle (needle ++ rest) = true := by
  induction needle with
  | nil => intro rest; rfl
  | cons a as ih => intro rest; simp [leadsWith, ih]

/-- A match at the head is a match. -/
theorem containsSeq_head {needle hay : List Char}
    (h : leadsWith needle hay = true) : containsSeq needle hay = true := by
  cases hay with
  | nil =>
    cases needle with
    | nil => rfl
    | cons a as => simp [leadsWith] at h
  | cons c rest => simp [containsSeq, h]

/-- Every `publish_post` 401 message contains `"Authentication"`. -/
theorem isTerminalMsg_auth (m : String) :
    isTerminalMsg ("Authentication failed: " ++ m) = true := by
  unfold isTerminalMsg containsStr
  have h1 : ("Authentication failed: ").data =
      "Authentication".data ++ " failed: ".data := by decide
  rw [String.data_append "Authentication failed: " m, h1, List.append_assoc]
  have h2 := containsSeq_head
    (leadsWith_append_self "Authentication".data (" failed: ".data ++ m.data))
  simp only [Bool.or_eq_true]
  exact Or.inl h2

/-- Every `publish_post` 429 message contains `"Rate limit"`. -/
theorem isTerminalMsg_rate (m : String) :
    isTerminalMsg ("Rate limit exceeded: " ++ m) = true := by
  unfold isTerminalMsg containsStr
  have h1 : ("Rate limit exceeded: ").data =
      "Rate limit".data ++ " exceeded: ".data := by decide
  rw [String.data_append "Rate limit exceeded: " m, h1, List.append_assoc]
  have h2 := containsSeq_head
    (leadsWith_append_self "Rate limit".data (" exceeded: ".data ++ m.data))
  simp only [Bool.or_eq_true]
  exact Or.inr h2

/-! Step lemmas for the two retry loops. -/

/-- A successful attempt returns at once. -/
theorem pubAux_ok (pub : Nat → Except PubError PublishResult)
    (attempt fuel : Nat) (r : PublishResult) (hp : pub attempt = .ok r) :
    publishRetryAux pub attempt (fuel + 1) = ⟨.ok r, 1, []⟩ := by
  rw [publishRetryAux.eq_def, hp]

/-- A terminal error re-raises at once. -/
theorem pubAux_term (pub : Nat → Except PubError PublishResult)
    (attempt fuel : Nat) (m : String)
    (hp : pub attempt = .error (.threadsAPIError m))
    (ht : isTerminalMsg m = true) :
    publishRetryAux pub attempt (fuel + 1) =
      ⟨.error (.threadsAPIError m), 1, []⟩ := by
  rw [publishRetryAux.eq_def, hp]
  simp [ht]

/-- A retryable error with attempts left sleeps `2 ^ attempt` and loops. -/
theorem pubAux_retry (pub : Nat → Except PubError PublishResult)
    (attempt fuel : Nat) (m : String)
    (hp : pub attempt = .error (.threadsAPIError m))
    (ht : isTerminalMsg m = false) :
    publishRetryAux pub attempt (fuel + 1 + 1) =
      ⟨(publishRetryAux pub (attempt + 1) (fuel + 1)).result,
       (publishRetryAux pub (attempt + 1) (fuel + 1)).calls + 1,
       2 ^ attempt :: (publishRetryAux pub (attempt + 1) (fuel + 1)).sleeps⟩ := by
  rw [publishRetryAux.eq_def, hp]
  simp [ht]

/-- A retryable error on the final attempt re-raises. -/
theorem pubAux_lastRetryable (pub : Nat → Except PubError PublishResult)
    (attempt : Nat) (m : String)
    (hp : pub attempt = .error (.threadsAPIError m))
    (ht : isTerminalMsg m = false) :
    publishRetryAux pub attempt 1 = ⟨.error (.threadsAPIError m), 1, []⟩ := by
  rw [publishRetryAux.eq_def, hp]
  simp [ht]

/-- What a retryable publish failure looks like. -/
theorem retryable_elim {e : Except PubError PublishResult}
    (h : isRetryableFailure e = true) :
    ∃ m, e = .error (.threadsAPIError m) ∧ isTerminalMsg m = false := by
  match e with
  | .ok r => simp [isRetryableFailure] at h
  | .error (.valueError m) => simp [isRetryableFailure] at h
  | .error (.threadsAPIError m) =>
    refine ⟨m, rfl, ?_⟩
    simpa [isRetryableFailure] using h

/-- What a retryable generator outcome looks like. -/
theorem genRetryable_elim {o : GenOutcome} (h : isGenRetryable o = true) :
    (∃ m, o = GenOutcome.authenticationError m) ∨
      (∃ m, o = GenOutcome.otherError m) := by
  cases o with
  | ok g => simp [isGenRetryable] at h
  | rateLimitError m => simp [isGenRetryable] at h
  | authenticationError m => exact Or.inl ⟨m, rfl⟩
  | otherError m => exact Or.inr ⟨m, rfl⟩

/-- A successful generation attempt returns at once. -/
theorem genAux_ok (op : Nat → GenOutcome) (attempt fuel : Nat)
    (g : GeneratedPost) (hp : op attempt = GenOutcome.ok g) :
    genRetryAux op attempt (fuel + 1) = ⟨.ok (some g), 1, []⟩ := by
  rw [genRetryAux.eq_def, hp]

/-- A rate-limit error re-raises at once. -/
theorem genAux_rate (op : Nat → GenOutcome) (attempt fuel : Nat) (m : String)
    (hp : op attempt = GenOutcome.rateLimitError m) :
    genRetryAux op attempt (fuel + 1) = ⟨.error (.rateLimitError m), 1, []⟩ := by
  rw [genRetryAux.eq_def, hp]

/-- Any other exception with attempts left sleeps `2 ^ attempt` and loops. -/
theorem genAux_retryStep (op : Nat → GenOutcome) (attempt fuel : Nat)
    (h : isGenRetryable (op attempt) = true) :
    genRetryAux op attempt (fuel + 1 + 1) =
      ⟨(genRetryAux op (attempt + 1) (fuel + 1)).result,
       (genRetryAux op (attempt + 1) (fuel + 1)).calls + 1,
       2 ^ attempt :: (genRetryAux op (attempt + 1) (fuel + 1)).sleeps⟩ := by
  rcases genRetryable_elim h with ⟨m, hm⟩ | ⟨m, hm⟩ <;> rw [genRetryAux.eq_def, hm]

/-- Any other exception on the final attempt re-raises. -/
theorem genAux_lastRetryable (op : Nat → GenOutcome) (attempt : Nat)
    (h : isGenRetryable (op attempt) = true) :
    genRetryAux op attempt 1 = ⟨.error (genOutcomeErr (op attempt)), 1, []⟩ := by
  rcases genRetryable_elim h with ⟨m, hm⟩ | ⟨m, hm⟩ <;> rw [genRetryAux.eq_def, hm] <;>
    simp [genOutcomeErr, hm]

/-- A constant per-attempt outcome stream. -/
def constOutcomes (o : HttpOutcome) : Nat → HttpOutcome := fun _ => o

/-- C2. For valid content: 401 and 429 responses make `publish_post` raise
a `ThreadsAPIError` that `publish_post_with_retry` re-raises after exactly
one invocation with no sleeps; a 200 response returns a success result
carrying the post id and URL; every other non-2xx status is returned as a
non-throwing failure result with a message; timeouts and network errors are
raised as exceptions. -/
theorem c2_response_classification (content : List Char)
    (h : (validate_post_content content).1 = true)
    (pid purl : Option String) (m : String) :
    (publish_post content (HttpOutcome.response 401 pid purl m) =
      .error (.threadsAPIError ("Authentication failed: " ++ m))) ∧
    (publish_post_with_retry content
        (constOutcomes (HttpOutcome.response 401 pid purl m)) 3 =
      ⟨.error (.threadsAPIError ("Authentication failed: " ++ m)), 1, []⟩) ∧
    (publish_post content (HttpOutcome.response 429 pid purl m) =
      .error (.threadsAPIError ("Rate limit exceeded: " ++ m))) ∧
    (publish_post_with_retry content
        (constOutcomes (HttpOutcome.response 429 pid purl m)) 3 =
      ⟨.error (.threadsAPIError ("Rate limit exceeded: " ++ m)), 1, []⟩) ∧
    (publish_post content (HttpOutcome.response 200 pid purl m) =
      .ok ⟨true, pid, purl, none, "threads"⟩) ∧
    (∀ status : Nat, status < 200 ∨ 300 ≤ status → status ≠ 401 → status ≠ 429 →
      publish_post content (HttpOutcome.response status pid purl m) =
        .ok ⟨false, none, none, some ("API error: " ++ m), "threads"⟩) ∧
    (publish_post content HttpOutcome.timeout =
      .error (.threadsAPIError "Request timeout")) ∧
    (publish_post content (HttpOutcome.networkError m) =
      .error (.threadsAPIError ("Network error: " ++ m))) := by
  have hv : ¬ ((validate_post_content content).1 = false) := by simp [h]
  have h401 : publish_post content (HttpOutcome.response 401 pid purl m) =
      .error (.threadsAPIError ("Authentication failed: " ++ m)) := by
    simp only [publish_post]
    rw [if_neg hv]
    norm_num
  have h429 : publish_post content (HttpOutcome.response 429 pid purl m) =
      .error (.threadsAPIError ("Rate limit exceeded: " ++ m)) := by
    simp only [publish_post]
    rw [if_neg hv]
    norm_num
  refine ⟨h401, ?_, h429, ?_, ?_, ?_, ?_, ?_⟩
  · unfold publish_post_with_retry
    exact pubAux_term _ 0 2 _ h401 (isTerminalMsg_auth m)
  · unfold publish_post_with_retry
    exact pubAux_term _ 0 2 _ h429 (isTerminalMsg_rate m)
  · simp only [publish_post]
    rw [if_neg hv]
    norm_num
  · intro status hrange h401s h429s
    have h200 : ¬ (status = 200) := by omega
    simp only [publish_post]
    rw [if_neg hv]
    simp only [if_neg h200, if_neg h401s, if_neg h429s]
  · simp only [publish_post]
    rw [if_neg hv]
  · simp only [publish_post]
    rw [if_neg hv]

/-- Concrete valid post content used by witnesses. -/
def validContent : List Char := "hello world test post".data

/-- Witness for C2: a 500 response on valid content comes back as a
non-throwing failure result. -/
theorem c2_response_classification_witness :
    publish_post validContent (HttpOutcome.response 500 none none "boom") =
      .ok ⟨false, none, none, some ("API error: " ++ "boom"), "threads"⟩ :=
  (c2_response_classification validContent (by decide) none none
    "boom").2.2.2.2.2.1 500 (Or.inr (by decide)) (by decide) (by decide)

/-- When every attempt in range fails retryably, the publish loop makes
exactly `fuel` calls and surfaces the last attempt's own error. -/
theorem pubAux_allRetryable (pub : Nat → Except PubError PublishResult) :
    ∀ (fuel attempt : Nat), 1 ≤ fuel →
      (∀ k, attempt ≤ k → k < attempt + fuel →
        isRetryableFailure (pub k) = true) →
      (publishRetryAux pub attempt fuel).result = pub (attempt + fuel - 1) ∧
      (publishRetryAux pub attempt fuel).calls = fuel := by
  intro fuel
  induction fuel with
  | zero => intro attempt h; omega
  | succ f ih =>
    intro attempt _ hall
    obtain ⟨m, hm, hT⟩ :=
      retryable_elim (hall attempt (Nat.le_refl _) (by omega))
    cases f with
    | zero =>
      rw [pubAux_lastRetryable pub attempt m hm hT]
      have hi : attempt + 1 - 1 = attempt := by omega
      rw [hi, hm]
      exact ⟨rfl, rfl⟩
    | succ f2 =>
      have estep := pubAux_retry pub attempt f2 m hm hT
      obtain ⟨hres, hcalls⟩ := ih (attempt + 1) (by omega)
        (fun k hk1 hk2 => hall k (by omega) (by omega))
      constructor
      · rw [show (f2 + 1 + 1 : Nat) = f2 + 2 from rfl] at estep
        rw [estep]
        rw [hres]
        exact congrArg pub (by omega)
      · rw [show (f2 + 1 + 1 : Nat) = f2 + 2 from rfl] at estep
        rw [estep]
        simp only []
        omega

/-- When every attempt in range fails retryably, the generation loop makes
exactly `fuel` calls and surfaces the last attempt's own error. -/
theorem genAux_allRetryable (op : Nat → GenOutcome) :
    ∀ (fuel attempt : Nat), 1 ≤ fuel →
      (∀ k, attempt ≤ k → k < attempt + fuel → isGenRetryable (op k) = true) →
      (genRetryAux op attempt fuel).result =
        .error (genOutcomeErr (op (attempt + fuel - 1))) ∧
      (genRetryAux op attempt fuel).calls = fuel := by
  intro fuel
  induction fuel with
  | zero => intro attempt h; omega
  | succ f ih =>
    intro attempt _ hall
    have h0 := hall attempt (Nat.le_refl _) (by omega)
    cases f with
    | zero =>
      rw [genAux_lastRetryable op attempt h0]
      have hi : attempt + 1 - 1 = attempt := by omega
      rw [hi]
      exact ⟨rfl, rfl⟩
    | succ f2 =>
      have estep := genAux_retryStep op attempt f2 h0
      obtain ⟨hres, hcalls⟩ := ih (attempt + 1) (by omega)
        (fun k hk1 hk2 => hall k (by omega) (by omega))
      constructor
      · rw [show (f2 + 1 + 1 : Nat) = f2 + 2 from rfl] at estep
        rw [estep, hres]
        have hi : attempt + 1 + (f2 + 1) - 1 = attempt + (f2 + 2) - 1 := by omega
        rw [hi]
      · rw [show (f2 + 1 + 1 : Nat) = f2 + 2 from rfl] at estep
        rw [estep]
        simp only []
        omega

/-- C3 (amended). With `maxAttempts = 3`: a wrapped operation that fails
retryably on the first two attempts and succeeds on the third returns the
success result after exactly 3 invocations, sleeping `2^(k-1)` units after
failed attempt `k` (1 unit, then 2); `publish_post_with_retry` treats
authentication and rate-limit errors as terminal (one invocation, error
re-raised); `generate_post_with_retry` treats only a rate-limit error as
terminal — an authentication failure there is retried like any other
exception (a first-attempt authentication failure followed by a success
yields the success after 2 invocations and one 1-unit sleep). -/
theorem c3_retry_counts (content : List Char)
    (outcomes : Nat → HttpOutcome) (r : PublishResult)
    (h0 : isRetryableFailure (publish_post content (outcomes 0)) = true)
    (h1 : isRetryableFailure (publish_post content (outcomes 1)) = true)
    (h2 : publish_post content (outcomes 2) = .ok r)
    (tmsg : String) (tout : Nat → HttpOutcome)
    (ht0 : publish_post content (tout 0) = .error (.threadsAPIError tmsg))
    (hterm : isTerminalMsg tmsg = true)
    (gops : Nat → GenOutcome) (g : GeneratedPost)
    (hg0 : isGenRetryable (gops 0) = true)
    (hg1 : isGenRetryable (gops 1) = true)
    (hg2 : gops 2 = GenOutcome.ok g)
    (rops : Nat → GenOutcome) (rmsg : String)
    (hr0 : rops 0 = GenOutcome.rateLimitError rmsg)
    (aops : Nat → GenOutcome) (amsg : String)
    (ha0 : aops 0 = GenOutcome.authenticationError amsg)
    (ha1 : aops 1 = GenOutcome.ok g) :
    publish_post_with_retry content outcomes 3 = ⟨.ok r, 3, [1, 2]⟩ ∧
    publish_post_with_retry content tout 3 =
      ⟨.error (.threadsAPIError tmsg), 1, []⟩ ∧
    generate_post_with_retry gops 3 = ⟨.ok (some g), 3, [1, 2]⟩ ∧
    generate_post_with_retry rops 3 = ⟨.error (.rateLimitError rmsg), 1, []⟩ ∧
    generate_post_with_retry aops 3 = ⟨.ok (some g), 2, [1]⟩ := by
  refine ⟨?_, ?_, ?_, ?_, ?_⟩
  · obtain ⟨m0, hm0, hT0⟩ := retryable_elim h0
    obtain ⟨m1, hm1, hT1⟩ := retryable_elim h1
    unfold publish_post_with_retry
    have e2 : publishRetryAux
        (fun k => publish_post content (outcomes k)) 2 1 = ⟨.ok r, 1, []⟩ :=
      pubAux_ok _ 2 0 r h2
    have e1 : publishRetryAux
        (fun k => publish_post content (outcomes k)) 1 2 =
        ⟨(publishRetryAux (fun k => publish_post content (outcomes k)) 2 1).result,
         (publishRetryAux (fun k => publish_post content (outcomes k)) 2 1).calls + 1,
         2 ^ 1 ::
           (publishRetryAux (fun k => publish_post content (outcomes k)) 2 1).sleeps⟩ :=
      pubAux_retry _ 1 0 m1 hm1 hT1
    rw [e2] at e1
    simp only [] at e1
    have e0 : publishRetryAux
        (fun k => publish_post content (outcomes k)) 0 3 =
        ⟨(publishRetryAux (fun k => publish_post content (outcomes k)) 1 2).result,
         (publishRetryAux (fun k => publish_post content (outcomes k)) 1 2).calls + 1,
         2 ^ 0 ::
           (publishRetryAux (fun k => publish_post content (outcomes k)) 1 2).sleeps⟩ :=
      pubAux_retry _ 0 1 m0 hm0 hT0
    rw [e1] at e0
    simp only [] at e0
    rw [e0]
    norm_num
  · unfold publish_post_with_retry
    exact pubAux_term _ 0 2 tmsg ht0 hterm
  · unfold generate_post_with_retry
    have e2 : genRetryAux gops 2 1 = ⟨.ok (some g), 1, []⟩ :=
      genAux_ok gops 2 0 g hg2
    have e1 : genRetryAux gops 1 2 =
        ⟨(genRetryAux gops 2 1).result, (genRetryAux gops 2 1).calls + 1,
         2 ^ 1 :: (genRetryAux gops 2 1).sleeps⟩ :=
      genAux_retryStep gops 1 0 hg1
    rw [e2] at e1
    simp only [] at e1
    have e0 : genRetryAux gops 0 3 =
        ⟨(genRetryAux gops 1 2).result, (genRetryAux gops 1 2).calls + 1,
         2 ^ 0 :: (genRetryAux gops 1 2).sleeps⟩ :=
      genAux_retryStep gops 0 1 hg0
    rw [e1] at e0
    simp only [] at e0
    rw [e0]
    norm_num
  · unfold generate_post_with_retry
    exact genAux_rate rops 0 2 rmsg hr0
  · unfold generate_post_with_retry
    have e1 : genRetryAux aops 1 2 = ⟨.ok (some g), 1, []⟩ :=
      genAux_ok aops 1 1 g ha1
    have e0 : genRetryAux aops 0 3 =
        ⟨(genRetryAux aops 1 2).result, (genRetryAux aops 1 2).calls + 1,
         2 ^ 0 :: (genRetryAux aops 1 2).sleeps⟩ := by
      have h0r : isGenRetryable (aops 0) = true := by rw [ha0]; rfl
      exact genAux_retryStep aops 0 1 h0r
    rw [e1] at e0
    simp only [] at e0
    rw [e0]
    norm_num

/-- A stub generated post used by concrete retry scenarios. -/
def stubGenPost : GeneratedPost := ⟨"threads", "post", [], 0, 4⟩

/-- Attempt outcomes: an authentication failure, then success. -/
def authThenOkOps : Nat → GenOutcome := fun k =>
  if k = 0 then GenOutcome.authenticationError "Invalid API key"
  else GenOutcome.ok stubGenPost

/-- C3 counterexample: `generate_post_with_retry` does not treat an
authentication failure as terminal — with a first-attempt authentication
error and `max_retries = 3` the operation is invoked twice (after a 1-unit
sleep) and the wrapper returns the second attempt's success instead of
propagating the error after exactly one invocation. -/
theorem c3_counterexample_auth_retried :
    generate_post_with_retry authThenOkOps 3 =
      ⟨.ok (some stubGenPost), 2, [1]⟩ ∧
    (generate_post_with_retry authThenOkOps 3).calls ≠ 1 := by
  exact ⟨rfl, by decide⟩

/-- Per-attempt outcomes for the publish success-on-third scenario. -/
def twoTimeoutsThen200 : Nat → HttpOutcome := fun k =>
  if k < 2 then HttpOutcome.timeout
  else HttpOutcome.response 200 (some "pid1") (some "purl1") ""

/-- Generator outcomes: two generic failures, then success. -/
def genTwoFailThenOk : Nat → GenOutcome := fun k =>
  if k < 2 then GenOutcome.otherError "boom" else GenOutcome.ok stubGenPost

/-- Generator outcomes: an immediate rate-limit error. -/
def rateLimitOps : Nat → GenOutcome := fun _ =>
  GenOutcome.rateLimitError "rl"

/-- Witness for C3 on concrete outcome streams: two timeouts then a 200,
a constant 401, two generic generator failures then success, an immediate
rate limit, and an authentication failure followed by success. -/
theorem c3_retry_counts_witness :
    publish_post_with_retry validContent twoTimeoutsThen200 3 =
      ⟨.ok ⟨true, some "pid1", some "purl1", none, "threads"⟩, 3, [1, 2]⟩ ∧
    publish_post_with_retry validContent
        (constOutcomes (HttpOutcome.response 401 none none "x")) 3 =
      ⟨.error (.threadsAPIError ("Authentication failed: " ++ "x")), 1, []⟩ ∧
    generate_post_with_retry genTwoFailThenOk 3 =
      ⟨.ok (some stubGenPost), 3, [1, 2]⟩ ∧
    generate_post_with_retry rateLimitOps 3 =
      ⟨.error (.rateLimitError "rl"), 1, []⟩ ∧
    generate_post_with_retry authThenOkOps 3 =
      ⟨.ok (some stubGenPost), 2, [1]⟩ :=
  c3_retry_counts validContent twoTimeoutsThen200
    ⟨true, some "pid1", some "purl1", none, "threads"⟩
    (by decide) (by decide) (by rfl)
    ("Authentication failed: " ++ "x")
    (constOutcomes (HttpOutcome.response 401 none none "x"))
    (by rfl) (by decide)
    genTwoFailThenOk stubGenPost (by decide) (by decide) (by rfl)
    rateLimitOps "rl" (by rfl)
    authThenOkOps "Invalid API key" (by rfl) (by rfl)

/-- C9. When the wrappers exhaust all `n ≥ 1` attempts and every failure
was retryable, the surfaced error is the last attempt's own error (for
publishing, the very exception `publish_post` raised on attempt `n`; for
generation, the last caught exception), not a synthesized
"all retries failed" value, and exactly `n` invocations were made. -/
theorem c9_last_error_surfaced (content : List Char)
    (outcomes : Nat → HttpOutcome) (op : Nat → GenOutcome) (n : Nat)
    (hn : 1 ≤ n)
    (hp : ∀ k, k < n →
      isRetryableFailure (publish_post content (outcomes k)) = true)
    (hg : ∀ k, k < n → isGenRetryable (op k) = true) :
    (publish_post_with_retry content outcomes n).result =
      publish_post content (outcomes (n - 1)) ∧
    (publish_post_with_retry content outcomes n).calls = n ∧
    (generate_post_with_retry op n).result =
      .error (genOutcomeErr (op (n - 1))) ∧
    (generate_post_with_retry op n).calls = n := by
  have h1 := pubAux_allRetryable (fun k => publish_post content (outcomes k))
    n 0 hn (fun k hk1 hk2 => hp k (by omega))
  have h2 := genAux_allRetryable op n 0 hn (fun k hk1 hk2 => hg k (by omega))
  have hz : 0 + n - 1 = n - 1 := by omega
  rw [hz] at h1 h2
  exact ⟨h1.1, h1.2, h2.1, h2.2⟩

/-- Constant timeout outcomes. -/
def timeoutOutcomes : Nat → HttpOutcome := fun _ => HttpOutcome.timeout

/-- Constant generic generator failures. -/
def boomOps : Nat → GenOutcome := fun _ => GenOutcome.otherError "boom"

/-- Witness for C9 with two attempts that both fail retryably. -/
theorem c9_last_error_surfaced_witness :
    (publish_post_with_retry validContent timeoutOutcomes 2).result =
      publish_post validContent (timeoutOutcomes 1) ∧
    (publish_post_with_retry validContent timeoutOutcomes 2).calls = 2 ∧
    (generate_post_with_retry boomOps 2).result =
      .error (genOutcomeErr (boomOps 1)) ∧
    (generate_post_with_retry boomOps 2).calls = 2 :=
  c9_last_error_surfaced validContent timeoutOutcomes boomOps 2
    (by decide) (by decide) (by decide)

/-! Lemmas for ingestion idempotence (C5). -/

/-- Membership characterisation of the video lookup. -/
theorem getv_isSome_iff (db : List Video) (vid : String) :
    (get_video_by_video_id db vid).isSome = true ↔
      ∃ v ∈ db, v.video_id = vid := by
  unfold get_video_by_video_id
  rw [Bool.eq_iff_iff, List.find?_isSome]
  simp

/-- An already-present candidate is skipped. -/
theorem ingest_skips (db : List Video) (v : FeedVideo)
    (h : (get_video_by_video_id db v.video_id).isSome = true) :
    ingest_video db v = db := by
  unfold ingest_video
  rw [if_pos h]

/-- Ingesting a candidate never removes a stored video id. -/
theorem present_mono (db : List Video) (w : FeedVideo) (vid : String)
    (h : (get_video_by_video_id db vid).isSome = true) :
    (get_video_by_video_id (ingest_video db w) vid).isSome = true := by
  unfold ingest_video
  split
  · exact h
  · unfold add_video
    rw [getv_isSome_iff] at h ⊢
    obtain ⟨v, hv, he⟩ := h
    exact ⟨v, List.mem_append_left _ hv, he⟩

/-- After ingesting a candidate, its id is stored. -/
theorem present_self (db : List Video) (w : FeedVideo) :
    (get_video_by_video_id (ingest_video db w) w.video_id).isSome = true := by
  unfold ingest_video
  split
  · assumption
  · unfold add_video
    rw [getv_isSome_iff]
    refine ⟨⟨db.length + 1, w.video_id, w.title, w.url, w.description,
      w.published_date, w.thumbnail_url, none, none, ProcessingStatus.NEW⟩,
      List.mem_append_right _ ?_, rfl⟩
    exact List.mem_singleton.mpr rfl

/-- A full ingestion pass never removes a stored video id. -/
theorem present_after_fold (feed : List FeedVideo) :
    ∀ (db : List Video) (vid : String),
      (get_video_by_video_id db vid).isSome = true →
      (get_video_by_video_id (check_new_videos db feed) vid).isSome = true := by
  induction feed with
  | nil => intro db vid h; exact h
  | cons f rest ih =>
    intro db vid h
    unfold check_new_videos at ih ⊢
    rw [List.foldl_cons]
    exact ih (ingest_video db f) vid (present_mono db f vid h)

/-- After a full pass, every feed candidate's id is stored. -/
theorem mem_feed_present (feed : List FeedVideo) :
    ∀ (db : List Video) (v : FeedVideo), v ∈ feed →
      (get_video_by_video_id (check_new_videos db feed) v.video_id).isSome =
        true := by
  induction feed with
  | nil => intro db v hv; cases hv
  | cons f rest ih =>
    intro db v hv
    unfold check_new_videos at ih ⊢
    rw [List.foldl_cons]
    rcases List.mem_cons.mp hv with he | hm
    · subst he
      have h1 := present_self db v
      have h2 := present_after_fold rest (ingest_video db v) v.video_id h1
      unfold check_new_videos at h2
      exact h2
    · exact ih (ingest_video db f) v hm

/-- A pass over a feed whose ids are all stored is a no-op. -/
theorem fold_noop (feed : List FeedVideo) :
    ∀ db : List Video,
      (∀ v ∈ feed, (get_video_by_video_id db v.video_id).isSome = true) →
      check_new_videos db feed = db := by
  induction feed with
  | nil => intro db _; rfl
  | cons f rest ih =>
    intro db h
    unfold check_new_videos at ih ⊢
    rw [List.foldl_cons, ingest_skips db f (h f (List.mem_cons_self f rest))]
    exact ih db (fun v hv => h v (List.mem_cons_of_mem f hv))

/-- C5. Ingestion is idempotent: a feed candidate whose `video_id` is
already stored is skipped (the store is unchanged), and running
`check_new_videos` twice against an unchanged feed creates nothing the
second time. -/
theorem c5_ingestion_idempotent :
    (∀ (db : List Video) (v : FeedVideo),
      (get_video_by_video_id db v.video_id).isSome = true →
      ingest_video db v = db) ∧
    (∀ (db : List Video) (feed : List FeedVideo),
      check_new_videos (check_new_videos db feed) feed =
        check_new_videos db feed) := by
  refine ⟨ingest_skips, ?_⟩
  intro db feed
  exact fold_noop feed (check_new_videos db feed)
    (fun v hv => mem_feed_present feed db v hv)

/-- A stored video row. -/
def storedVideo : Video :=
  ⟨1, "vid123", "Title", "url", none, 0, none, none, none, ProcessingStatus.NEW⟩

/-- A feed candidate with the same source id. -/
def feedDup : FeedVideo := ⟨"vid123", "Title", "url", 0, none, none⟩

/-- Witness for C5: re-observing a stored id is a no-op. -/
theorem c5_ingestion_idempotent_witness :
    ingest_video [storedVideo] feedDup = [storedVideo] :=
  c5_ingestion_idempotent.1 [storedVideo] feedDup (by decide)

/-! Lemmas for the Post publishing invariant (C6). -/

/-- Marking preserves the URL-iff-PUBLISHED invariant. -/
theorem mark_preserves_inv (post_id : Nat) (url : String) :
    ∀ db : List Post, postUrlInvariant db →
      postUrlInvariant (mark_post_as_published db post_id url) := by
  intro db
  induction db with
  | nil =>
    intro _ p hp
    simp [mark_post_as_published] at hp
  | cons a rest ih =>
    intro hinv p hp
    unfold mark_post_as_published at hp
    by_cases ha : a.id = post_id
    · rw [if_pos ha] at hp
      rcases List.mem_cons.mp hp with he | hm
      · subst he
        simp
      · exact hinv p (List.mem_cons_of_mem a hm)
    · rw [if_neg ha] at hp
      rcases List.mem_cons.mp hp with he | hm
      · subst he
        exact hinv p (List.mem_cons_self _ rest)
      · exact ih (fun q hq => hinv q (List.mem_cons_of_mem a hq)) p hm

/-- Every row after marking is an untouched original row or has been set to
`PUBLISHED` together with the URL. -/
theorem mark_rows (post_id : Nat) (url : String) :
    ∀ db : List Post, ∀ q ∈ mark_post_as_published db post_id url,
      q ∈ db ∨ (q.status = PostStatus.PUBLISHED ∧ q.published_url = some url) := by
  intro db
  induction db with
  | nil =>
    intro q hq
    simp [mark_post_as_published] at hq
  | cons a rest ih =>
    intro q hq
    unfold mark_post_as_published at hq
    by_cases ha : a.id = post_id
    · rw [if_pos ha] at hq
      rcases List.mem_cons.mp hq with he | hm
      · subst he
        exact Or.inr ⟨rfl, rfl⟩
      · exact Or.inl (List.mem_cons_of_mem a hm)
    · rw [if_neg ha] at hq
      rcases List.mem_cons.mp hq with he | hm
      · subst he
        exact Or.inl (List.mem_cons_self _ rest)
      · rcases ih q hm with h1 | h2
        · exact Or.inl (List.mem_cons_of_mem a h1)
        · exact Or.inr h2

/-- A row that is already `PUBLISHED` stays `PUBLISHED` under marking. -/
theorem mark_keeps_published (post_id : Nat) (url : String) :
    ∀ (db : List Post) (i : Nat) (p : Post), db[i]? = some p →
      p.status = PostStatus.PUBLISHED →
      ∃ q, (mark_post_as_published db post_id url)[i]? = some q ∧
        q.status = PostStatus.PUBLISHED := by
  intro db
  induction db with
  | nil =>
    intro i p hp _
    simp at hp
  | cons a rest ih =>
    intro i p hp hst
    unfold mark_post_as_published
    cases i with
    | zero =>
      simp only [List.getElem?_cons_zero, Option.some_inj] at hp
      obtain rfl := hp
      by_cases ha : a.id = post_id
      · rw [if_pos ha, List.getElem?_cons_zero]
        exact ⟨_, rfl, rfl⟩
      · rw [if_neg ha, List.getElem?_cons_zero]
        exact ⟨a, rfl, hst⟩
    | succ i2 =>
      simp only [List.getElem?_cons_succ] at hp
      by_cases ha : a.id = post_id
      · rw [if_pos ha]
        refine ⟨p, ?_, hst⟩
        rw [List.getElem?_cons_succ]
        exact hp
      · rw [if_neg ha]
        obtain ⟨q, hq1, hq2⟩ := ih i2 p hp hst
        refine ⟨q, ?_, hq2⟩
        rw [List.getElem?_cons_succ]
        exact hq1

/-- C6 (amended). `add_post` appends a row with no published URL in the
caller-supplied status (`DRAFT` is the Python default); with any
non-`PUBLISHED` status it preserves the invariant that `published_url` is
set iff the status is `PUBLISHED`; `mark_post_as_published` preserves the
invariant and is the only operation that sets `published_url`, setting the
status to `PUBLISHED` in the same step; and a `PUBLISHED` row never leaves
`PUBLISHED`, so a post transitions into `PUBLISHED` at most once. -/
theorem c6_post_url_invariant (db : List Post) (video_id post_id : Nat)
    (platform content url : String) (status : PostStatus)
    (hinv : postUrlInvariant db) (hs : status ≠ PostStatus.PUBLISHED) :
    (add_post db video_id platform content status =
      db ++ [⟨db.length + 1, video_id, platform, content, status, none⟩]) ∧
    postUrlInvariant (add_post db video_id platform content status) ∧
    postUrlInvariant (mark_post_as_published db post_id url) ∧
    (∀ q ∈ mark_post_as_published db post_id url,
      q ∈ db ∨ (q.status = PostStatus.PUBLISHED ∧
        q.published_url = some url)) ∧
    (∀ (i : Nat) (p : Post), db[i]? = some p →
      p.status = PostStatus.PUBLISHED →
      ((add_post db video_id platform content status)[i]? = some p ∧
       ∃ q, (mark_post_as_published db post_id url)[i]? = some q ∧
         q.status = PostStatus.PUBLISHED)) := by
  refine ⟨rfl, ?_, mark_preserves_inv post_id url db hinv,
    mark_rows post_id url db, ?_⟩
  · intro p hp
    unfold add_post at hp
    rcases List.mem_append.mp hp with hm | he
    · exact hinv p hm
    · rw [List.mem_singleton.mp he]
      constructor
      · intro hc
        exact absurd rfl hc
      · intro hst
        exact absurd hst hs
  · intro i p hp hst
    constructor
    · unfold add_post
      have hlt : i < db.length := (List.getElem?_eq_some.mp hp).1
      rw [List.getElem?_append_left hlt]
      exact hp
    · exact mark_keeps_published post_id url db i p hp hst

/-- C6 counterexample: the empty store satisfies the invariant, but calling
`add_post` with an explicit `status = PUBLISHED` argument (the parameter the
Python signature exposes with default `DRAFT`) creates a `PUBLISHED` row
with a null `published_url`, breaking it. -/
theorem c6_counterexample_add_published :
    postUrlInvariant ([] : List Post) ∧
    ¬ postUrlInvariant
        (add_post [] 1 "threads" "content" PostStatus.PUBLISHED) := by
  exact ⟨by decide, by decide⟩

/-- Witness for C6: the appended draft row on the empty store. -/
theorem c6_post_url_invariant_witness :
    add_post [] 1 "threads" "content" PostStatus.DRAFT =
      [⟨1, 1, "threads", "content", PostStatus.DRAFT, none⟩] :=
  (c6_post_url_invariant [] 1 1 "threads" "content" "url" PostStatus.DRAFT
    (by decide) (by decide)).1
